import Mathlib

/-!
Shallow embedding of the waitless-market order & ticket lifecycle engine.

Source files modelled here:
* `src/core/orders.ts` — `canTransition`, `createOrder`, `updateOrderStatus`
  (namespace `Orders`); the external store (Supabase) is modelled by passing
  the result of each query/insert explicitly (`CreateOrderEnv`).
* `src/unnamed/part_008` — the timestamping variant of `updateOrderStatus`
  (namespace `OrdersTs`).
* `src/unnamed/part_000` — the session-start route with its bounded
  collision-retry loop (`sessionsStart`).
* `src/lib/adminDashboard.ts` — `getAdminSummary` (namespace `AdminDashboard`).

JavaScript numbers are modelled as `ℚ` (money amounts, epoch-millisecond
timestamps), integer cent amounts and quantities as `Int`, and
`Math.round` on the nonnegative amounts involved as `⌊x + 1/2⌋`.
Thrown errors are modelled with `Except`.
-/

namespace WaitlessMarket

/-- `OrderStatus` from `src/core/types.ts`. -/
inductive OrderStatus where
  | preparing
  | ready
  | collected
deriving DecidableEq, Repr

/-- `canTransition` from `src/core/orders.ts` (lines 46–50). -/
def canTransition : OrderStatus → OrderStatus → Bool
  | OrderStatus.preparing, OrderStatus.ready => true
  | OrderStatus.ready, OrderStatus.collected => true
  | _, _ => false

/-- JavaScript `Math.round` on a nonnegative rational: `⌊x + 1/2⌋`
(`Rat.floor` is the computable floor on `ℚ`). -/
def jsRound (q : ℚ) : Int := Rat.floor (q + 1/2)

namespace Orders

/-- `CreateOrderItemInput` from `src/core/types.ts`. -/
structure CreateOrderItemInput where
  menuItemId : String
  quantity : Int
  itemNotes : Option String
deriving DecidableEq, Repr

/-- `CreateOrderInput` from `src/core/types.ts`, extended with the optional
`sessionId` accepted by `createOrder`. -/
structure CreateOrderInput where
  vendorId : String
  items : List CreateOrderItemInput
  paymentMethod : String
  taxRate : Option ℚ
  sessionId : Option String
deriving DecidableEq, Repr

/-- `DbMenuItem` row shape from `src/core/orders.ts`. -/
structure DbMenuItem where
  id : String
  name : String
  price_cents : Int
  is_active : Bool
  is_available : Bool
deriving DecidableEq, Repr

/-- Vendor row as selected by `createOrder` (`id, is_active`). -/
structure DbVendor where
  id : String
  is_active : Bool
deriving DecidableEq, Repr

/-- Session (ticket) row as used by `createOrder`. -/
structure DbOrderSession where
  id : String
  ticket_code : String
deriving DecidableEq, Repr

/-- The errors thrown by `createOrder` in `src/core/orders.ts`.
`menuLookupCrash` models the runtime failure of the non-null assertion
`menuItems.find(...)!` in step 3. -/
inductive OrderError where
  | emptyCart
  | sessionFailed
  | vendorNotFound
  | vendorInactive
  | menuFetchFailed
  | menuItemsNotFound
  | itemUnavailable (name : String)
  | menuLookupCrash
  | orderInsertFailed
  | itemsInsertFailed
deriving DecidableEq, Repr

/-- An `order_items` row as inserted by `createOrder`. -/
structure OrderItemRow where
  name_snapshot : String
  unit_price_cents : Int
  quantity : Int
  itemNotes : Option String
deriving DecidableEq, Repr

/-- An `orders` row as inserted by `createOrder`. -/
structure OrderRow where
  id : String
  order_code : String
  vendor_id : String
  session_id : String
  total_cents : Int
  net_cents : Int
  tax_cents : Int
  tax_rate : ℚ
  payment_method : String
  status : OrderStatus
deriving DecidableEq, Repr

/-- The persisted outcome of a successful `createOrder` call: the order row,
its line-item rows, and the ticket code returned to the caller. -/
structure CreatedOrderResult where
  order : OrderRow
  items : List OrderItemRow
  ticketCode : String
deriving DecidableEq, Repr

/-- Explicit results of the external store calls made by `createOrder`.
`orderInsertOutcomes i` is the outcome of the `i`-th insert attempt into
`orders` (`true` = success, `false` = failure such as a uniqueness
violation); the source performs exactly one attempt and only ever consults
attempt `0`. -/
structure CreateOrderEnv where
  sessionResult : Option DbOrderSession
  vendorRow : Option DbVendor
  menuTable : Option (List DbMenuItem)
  orderCode : String
  newOrderId : String
  orderInsertOutcomes : Nat → Bool
  itemsInsertOk : Bool

/-- Step 3 of `createOrder`: build the `order_items` payload, looking each
cart line up in the fetched menu items (`menuItems.find(...)!`); `none`
models the crash of the non-null assertion. -/
def buildOrderItems (menuItems : List DbMenuItem) :
    List CreateOrderItemInput → Option (List OrderItemRow)
  | [] => some []
  | line :: rest =>
    match menuItems.find? fun m => m.id == line.menuItemId with
    | none => none
    | some menuItem =>
      match buildOrderItems menuItems rest with
      | none => none
      | some rows =>
        some ({ name_snapshot := menuItem.name
                unit_price_cents := menuItem.price_cents
                quantity := line.quantity
                itemNotes := line.itemNotes } :: rows)

/-- `createOrder` from `src/core/orders.ts` (lines 108–258). -/
def createOrder (env : CreateOrderEnv) (input : CreateOrderInput) :
    Except OrderError CreatedOrderResult :=
  if input.items.length = 0 then .error .emptyCart else
  match env.sessionResult with
  | none => .error .sessionFailed
  | some session =>
    match env.vendorRow with
    | none => .error .vendorNotFound
    | some vendor =>
      if vendor.is_active = false then .error .vendorInactive else
      match env.menuTable with
      | none => .error .menuFetchFailed
      | some table =>
        let menuItemIds := input.items.map fun i => i.menuItemId
        let menuItems := table.filter fun m => menuItemIds.contains m.id
        if menuItems.length ≠ menuItemIds.length then .error .menuItemsNotFound else
        match menuItems.find? fun m => !m.is_active || !m.is_available with
        | some item => .error (.itemUnavailable item.name)
        | none =>
          match buildOrderItems menuItems input.items with
          | none => .error .menuLookupCrash
          | some rows =>
            let totalCents : Int := (rows.map fun r => r.unit_price_cents * r.quantity).sum
            let taxRate := input.taxRate.getD 0
            let netCents : Int :=
              if 0 < taxRate then jsRound ((totalCents : ℚ) / (1 + taxRate / 100))
              else totalCents
            let taxCents := totalCents - netCents
            if env.orderInsertOutcomes 0 = false then .error .orderInsertFailed else
            if env.itemsInsertOk = false then .error .itemsInsertFailed else
            .ok { order := { id := env.newOrderId
                             order_code := env.orderCode
                             vendor_id := input.vendorId
                             session_id := session.id
                             total_cents := totalCents
                             net_cents := netCents
                             tax_cents := taxCents
                             tax_rate := taxRate
                             payment_method := input.paymentMethod
                             status := .preparing }
                  items := rows
                  ticketCode := session.ticket_code }

/-- Minimal order row (`id, status`) loaded by `updateOrderStatus`. -/
structure DbOrderMinimal where
  id : String
  status : OrderStatus
deriving DecidableEq, Repr

/-- The errors thrown by `updateOrderStatus` in `src/core/orders.ts`. -/
inductive UpdateError where
  | missingIdentifier
  | orderNotFound
  | invalidTransition (fromStatus toStatus : OrderStatus)
  | updateFailed
deriving DecidableEq, Repr

/-- `updateOrderStatus` from `src/core/orders.ts` (lines 264–320), applied to
the order row it loaded.  The pair is (returned result, the order row as left
in the store after the call). -/
def updateOrderStatus (current : DbOrderMinimal) (toStatus : OrderStatus) :
    Except UpdateError DbOrderMinimal × DbOrderMinimal :=
  if current.status = toStatus then
    (.ok current, current)
  else if canTransition current.status toStatus = false then
    (.error (.invalidTransition current.status toStatus), current)
  else
    (.ok { id := current.id, status := toStatus },
     { current with status := toStatus })

end Orders

namespace OrdersTs

/-- Order row with timing fields (`DbOrderStatusRow`) loaded by the
`updateOrderStatus` of `src/unnamed/part_008` (`core/orders.ts` variant). -/
structure DbOrderStatusRow where
  id : String
  status : OrderStatus
  preparing_at : Option String
  ready_at : Option String
  collected_at : Option String
deriving DecidableEq, Repr

/-- `updateOrderStatus` from `src/unnamed/part_008` (lines 270–347), applied
to the order row it loaded; `atArg` is the resolved `at` timestamp.  The pair
is (returned result, the order row as left in the store after the call). -/
def updateOrderStatus (current : DbOrderStatusRow) (toStatus : OrderStatus)
    (atArg : String) :
    Except Orders.UpdateError Orders.DbOrderMinimal × DbOrderStatusRow :=
  if current.status = toStatus then
    (.ok { id := current.id, status := current.status }, current)
  else if canTransition current.status toStatus = false then
    (.error (.invalidTransition current.status toStatus), current)
  else
    let u0 := { current with status := toStatus }
    let u1 := if toStatus = .preparing ∧ current.preparing_at = none then
                { u0 with preparing_at := some atArg } else u0
    let u2 := if toStatus = .ready ∧ current.ready_at = none then
                { u1 with ready_at := some atArg } else u1
    let u3 := if toStatus = .collected ∧ current.collected_at = none then
                { u2 with collected_at := some atArg } else u2
    (.ok { id := current.id, status := toStatus }, u3)

end OrdersTs

namespace SessionsStart

/-- Scan of the insert outcomes of the retry loop in
`src/unnamed/part_000` (`app/api/sessions/start/route.ts`, lines 99–130):
the first successful insert wins; exhausting the list fails. -/
def firstInsertSuccess : List (Option Orders.DbOrderSession) →
    Except String Orders.DbOrderSession
  | [] => .error "Failed to create session after retries"
  | none :: rest => firstInsertSuccess rest
  | some s :: _ => .ok s

/-- The `POST` handler of `src/unnamed/part_000`: up to 5 insert attempts,
each with a freshly generated ticket code; `attempts i` is the outcome of the
`i`-th attempt (`none` = insert error, e.g. a code collision). -/
def sessionsStart (attempts : Nat → Option Orders.DbOrderSession) :
    Except String Orders.DbOrderSession :=
  firstInsertSuccess ((List.range 5).map attempts)

end SessionsStart

namespace AdminDashboard

/-- An `orders` row as read by `getAdminSummary` in
`src/lib/adminDashboard.ts`.  `created_at` and `ready_at` are the epoch
milliseconds produced by `new Date(...).getTime()`; `none` models a null
column.  `preparing_at` is a column of the underlying `orders` table (written
by the engine variant in `src/unnamed/part_008`) that the summary query does
NOT select and the function never reads; it is carried here so that the
specification-side prep-time formula can be stated against the same rows. -/
structure DbOrderSummaryRow where
  id : String
  order_code : String
  vendor_id : Option String
  total_cents : Option Int
  tax_cents : Option Int
  tax_rate : Option ℚ
  status : OrderStatus
  created_at : Option ℚ
  ready_at : Option ℚ
  preparing_at : Option ℚ
deriving DecidableEq, Repr

/-- One element of `vendorSalesToday` (amounts in kwacha). -/
structure VendorSale where
  vendorId : String
  vendorName : String
  total : ℚ
deriving DecidableEq, Repr

/-- The `topItem` field. -/
structure TopItem where
  name : String
  quantity : Int
deriving DecidableEq, Repr

/-- One element of `latestOrders`. -/
structure LatestOrder where
  id : String
  code : String
  tableNumber : Option String
  status : OrderStatus
  totalAmount : ℚ
  createdAt : Option ℚ
deriving DecidableEq, Repr

/-- `AdminSummary` from `src/lib/adminDashboard.ts`. -/
structure AdminSummary where
  ordersToday : Nat
  revenueToday : ℚ
  taxToday : ℚ
  activeOrders : Nat
  avgPrepMinutesToday : Option ℚ
  vendorSalesToday : List VendorSale
  topVendor : Option VendorSale
  topItem : Option TopItem
  latestOrders : List LatestOrder
deriving DecidableEq, Repr

/-- A vendor name row (`id, name`) from the vendors query. -/
structure DbVendorNameRow where
  id : String
  name : String
deriving DecidableEq, Repr

/-- An `order_items` row (`order_id, name_snapshot, quantity`) from the
items query. -/
structure DbOrderItemRow where
  order_id : String
  name_snapshot : String
  quantity : Int
deriving DecidableEq, Repr

/-- Explicit results of the three store queries made by `getAdminSummary`:
the day's order rows (ordered by `created_at` descending, as requested),
the vendor-name rows, and the order-item rows for the day's orders.
`none` models a query error. -/
structure AdminEnv where
  ordersResult : Option (List DbOrderSummaryRow)
  vendorsResult : Option (List DbVendorNameRow)
  itemsResult : Option (List DbOrderItemRow)

/-- `DEFAULT_VAT_RATE` from `src/lib/adminDashboard.ts`. -/
def DEFAULT_VAT_RATE : ℚ := 16

/-- Accumulator of the first `for` loop of `getAdminSummary`
(lines 107–133). -/
structure Pass1 where
  totalCents : Int
  taxCentsFromDb : Int
  anyNonZeroTax : Bool
  activeOrders : Nat
  prepDurationsMinutes : List ℚ
deriving Repr

/-- One iteration of the first `for` loop of `getAdminSummary`. -/
def pass1Step (acc : Pass1) (o : DbOrderSummaryRow) : Pass1 :=
  let t := o.total_cents.getD 0
  let tax := o.tax_cents.getD 0
  { totalCents := acc.totalCents + t
    taxCentsFromDb := acc.taxCentsFromDb + tax
    anyNonZeroTax := acc.anyNonZeroTax || decide (0 < tax)
    activeOrders := acc.activeOrders + (if o.status ≠ OrderStatus.collected then 1 else 0)
    prepDurationsMinutes := acc.prepDurationsMinutes ++
      (match o.created_at, o.ready_at with
       | some created, some ready =>
         if created < ready then [(ready - created) / (1000 * 60)] else []
       | _, _ => []) }

/-- The first `for` loop of `getAdminSummary` over the day's rows. -/
def pass1 (rows : List DbOrderSummaryRow) : Pass1 :=
  rows.foldl pass1Step
    { totalCents := 0, taxCentsFromDb := 0, anyNonZeroTax := false
      activeOrders := 0, prepDurationsMinutes := [] }

/-- `vendorSalesMap.get/set` step: update the entry for `vid` in place if
present (JS `Map` keeps insertion order), otherwise append a new entry whose
name is fixed at insertion time. -/
def bumpVendor (sales : List VendorSale) (vid vname : String) (inc : ℚ) :
    List VendorSale :=
  match sales with
  | [] => [{ vendorId := vid, vendorName := vname, total := inc }]
  | e :: rest =>
    if e.vendorId = vid then { e with total := e.total + inc } :: rest
    else e :: bumpVendor rest vid vname inc

/-- `vendorNameById.get(vid)`: lookup in the JS `Map` built from the vendor
rows (for a duplicated id the later row wins, as in the `Map` constructor);
`none` both when the vendors query failed and when the id is absent. -/
def vendorNameLookup (vendorsResult : Option (List DbVendorNameRow))
    (vid : String) : Option String :=
  match vendorsResult with
  | none => none
  | some rows => (rows.reverse.find? fun v => v.id == vid).map fun v => v.name

/-- One iteration of the vendor-sales aggregation loop of `getAdminSummary`
(lines 161–178): orders with a null `vendor_id` are skipped; missing names
fall back to `"Unknown vendor"`. -/
def vendorStep (nameOf : String → Option String) (sales : List VendorSale)
    (o : DbOrderSummaryRow) : List VendorSale :=
  match o.vendor_id with
  | none => sales
  | some vid =>
    bumpVendor sales vid ((nameOf vid).getD "Unknown vendor")
      ((o.total_cents.getD 0 : Int) / 100 : ℚ)

/-- The vendor-sales aggregation loop of `getAdminSummary` (lines 161–178). -/
def vendorAgg (nameOf : String → Option String)
    (rows : List DbOrderSummaryRow) : List VendorSale :=
  rows.foldl (vendorStep nameOf) []

/-- `itemTotals.set(name, (get ?? 0) + qty)` step (JS `Map`, insertion
order). -/
def bumpItem (totals : List (String × Int)) (iname : String) (qty : Int) :
    List (String × Int) :=
  match totals with
  | [] => [(iname, qty)]
  | e :: rest =>
    if e.1 = iname then (e.1, e.2 + qty) :: rest
    else e :: bumpItem rest iname qty

/-- Grouping of item quantities by name snapshot (lines 205–211); a falsy
(empty) `name_snapshot` becomes `"Unknown item"`. -/
def itemTotals (items : List DbOrderItemRow) : List (String × Int) :=
  items.foldl
    (fun acc it =>
      bumpItem acc (if it.name_snapshot = "" then "Unknown item" else it.name_snapshot)
        it.quantity)
    []

/-- The best-item scan (lines 213–225): starting from quantity 0 and no name,
an entry replaces the current best only if strictly greater. -/
def bestItem (totals : List (String × Int)) : Option TopItem :=
  totals.foldl
    (fun b e =>
      if (match b with | none => (0 : Int) | some t => t.quantity) < e.2 then
        some { name := e.1, quantity := e.2 }
      else b)
    none

/-- `latestOrders` (lines 230–237): first 40 rows of the (created-at
descending) result set. -/
def latestOrdersOf (rows : List DbOrderSummaryRow) : List LatestOrder :=
  (rows.take 40).map fun o =>
    { id := o.id
      code := o.order_code
      tableNumber := none
      status := o.status
      totalAmount := ((o.total_cents.getD 0 : Int) / 100 : ℚ)
      createdAt := o.created_at }

/-- `getAdminSummary` from `src/lib/adminDashboard.ts` (lines 54–254).
The JS stable `sort((a, b) => b.totalKw - a.totalKw)` is modelled by a stable
merge sort with the comparator `b.total ≤ a.total`. -/
def getAdminSummary (env : AdminEnv) : Except String AdminSummary :=
  match env.ordersResult with
  | none => .error "Failed to load orders for admin summary."
  | some safeOrders =>
    let p := pass1 safeOrders
    let revenueToday : ℚ := (p.totalCents : ℚ) / 100
    let taxToday : ℚ :=
      if p.anyNonZeroTax = true ∧ 0 < p.taxCentsFromDb then
        (p.taxCentsFromDb : ℚ) / 100
      else
        revenueToday - revenueToday / (1 + DEFAULT_VAT_RATE / 100)
    let avgPrepMinutesToday : Option ℚ :=
      if 0 < p.prepDurationsMinutes.length then
        some (p.prepDurationsMinutes.sum / (p.prepDurationsMinutes.length : ℚ))
      else none
    let vendorSalesToday :=
      (vendorAgg (vendorNameLookup env.vendorsResult) safeOrders).mergeSort
        fun a b => decide (b.total ≤ a.total)
    let topItem : Option TopItem :=
      if safeOrders.length = 0 then none
      else
        match env.itemsResult with
        | none => none
        | some items => bestItem (itemTotals items)
    .ok { ordersToday := safeOrders.length
          revenueToday := revenueToday
          taxToday := taxToday
          activeOrders := p.activeOrders
          avgPrepMinutesToday := avgPrepMinutesToday
          vendorSalesToday := vendorSalesToday
          topVendor := vendorSalesToday.head?
          topItem := topItem
          latestOrders := latestOrdersOf safeOrders }

/-- The all-zero summary the spec says a day with zero orders yields. -/
def zeroAdminSummary : AdminSummary :=
  { ordersToday := 0, revenueToday := 0, taxToday := 0, activeOrders := 0
    avgPrepMinutesToday := none, vendorSalesToday := [], topVendor := none
    topItem := none, latestOrders := [] }

/-- Prep duration of one order as `getAdminSummary` computes it:
`(ready_at − created_at)` in minutes when both are present and
`ready_at > created_at`. -/
def prepMinutesCode (o : DbOrderSummaryRow) : Option ℚ :=
  match o.created_at, o.ready_at with
  | some created, some ready =>
    if created < ready then some ((ready - created) / (1000 * 60)) else none
  | _, _ => none

/-- Average of the per-order prep durations actually used by the code
(`created_at → ready_at`), `none` when no order qualifies. -/
def avgPrepMinutesFromCreated (rows : List DbOrderSummaryRow) : Option ℚ :=
  let ds := rows.filterMap prepMinutesCode
  if 0 < ds.length then some (ds.sum / (ds.length : ℚ)) else none

/-- Prep duration of one order as the SPEC claims it:
`(ready_at − preparing_at)` in minutes when both are present and
`ready_at > preparing_at`.  (Stated from the spec's words, for comparison
with the code.) -/
def prepMinutesClaim (o : DbOrderSummaryRow) : Option ℚ :=
  match o.preparing_at, o.ready_at with
  | some prep, some ready =>
    if prep < ready then some ((ready - prep) / (1000 * 60)) else none
  | _, _ => none

/-- The spec's claimed `avgPrepMinutes`: mean of `(ready_at − preparing_at)`
in minutes over orders where both timestamps are present and
`ready_at > preparing_at`; `null` if no such order exists.  (Stated from the
spec's words, for comparison with the code.) -/
def avgPrepMinutesClaim (rows : List DbOrderSummaryRow) : Option ℚ :=
  let ds := rows.filterMap prepMinutesClaim
  if 0 < ds.length then some (ds.sum / (ds.length : ℚ)) else none

end AdminDashboard

namespace Orders

/-- Menu item A of the spec's worked scenario (price 1000, active,
available). -/
def menuA : DbMenuItem :=
  { id := "mA", name := "Item A", price_cents := 1000
    is_active := true, is_available := true }

/-- Menu item B of the spec's worked scenario (price 500, active,
available). -/
def menuB : DbMenuItem :=
  { id := "mB", name := "Item B", price_cents := 500
    is_active := true, is_available := true }

/-- A store environment in which every call succeeds. -/
def scenarioEnv : CreateOrderEnv :=
  { sessionResult := some { id := "s1", ticket_code := "WL-1111" }
    vendorRow := some { id := "v1", is_active := true }
    menuTable := some [menuA, menuB]
    orderCode := "MS-4821"
    newOrderId := "o1"
    orderInsertOutcomes := fun _ => true
    itemsInsertOk := true }

/-- The spec's worked cart: item A × 2, item B × 1, tax rate 16. -/
def scenarioInput : CreateOrderInput :=
  { vendorId := "v1"
    items := [ { menuItemId := "mA", quantity := 2, itemNotes := none },
               { menuItemId := "mB", quantity := 1, itemNotes := none } ]
    paymentMethod := "cash"
    taxRate := some 16
    sessionId := none }

/-- The order `createOrder` persists for the worked scenario. -/
def scenarioResult : CreatedOrderResult :=
  { order := { id := "o1", order_code := "MS-4821", vendor_id := "v1"
               session_id := "s1", total_cents := 2500, net_cents := 2155
               tax_cents := 345, tax_rate := 16, payment_method := "cash"
               status := .preparing }
    items := [ { name_snapshot := "Item A", unit_price_cents := 1000
                 quantity := 2, itemNotes := none },
               { name_snapshot := "Item B", unit_price_cents := 500
                 quantity := 1, itemNotes := none } ]
    ticketCode := "WL-1111" }

/-- `scenarioEnv` where the first insert into `orders` hits a uniqueness
violation and any regenerated retry would succeed. -/
def collideEnv : CreateOrderEnv :=
  { scenarioEnv with orderInsertOutcomes := fun i => decide (i ≠ 0) }

/-- Session-insert outcomes where the first attempt collides and the second
(regenerated) attempt succeeds. -/
def collideAttempts : Nat → Option DbOrderSession :=
  fun i => if i = 0 then none else some { id := "s2", ticket_code := "WL-2222" }

/-- A cart whose single line has quantity 0. -/
def zeroQtyInput : CreateOrderInput :=
  { vendorId := "v1"
    items := [ { menuItemId := "mA", quantity := 0, itemNotes := none } ]
    paymentMethod := "cash"
    taxRate := none
    sessionId := none }

/-- A cart listing the same (existing, active, available) menu item twice. -/
def dupInput : CreateOrderInput :=
  { vendorId := "v1"
    items := [ { menuItemId := "mA", quantity := 1, itemNotes := none },
               { menuItemId := "mA", quantity := 1, itemNotes := none } ]
    paymentMethod := "cash"
    taxRate := none
    sessionId := none }

end Orders

namespace AdminDashboard

/-- A day's single order: total 1000 cents, `created_at = 0` ms,
`ready_at = 900000` ms (15 minutes later), `preparing_at` null. -/
def row0 : DbOrderSummaryRow :=
  { id := "o1", order_code := "MS-1001", vendor_id := some "v1"
    total_cents := some 1000, tax_cents := some 0, tax_rate := some 0
    status := .ready, created_at := some 0, ready_at := some 900000
    preparing_at := none }

/-- Environment in which the day's order query fails. -/
def envOrdersFail : AdminEnv :=
  { ordersResult := none, vendorsResult := some [], itemsResult := some [] }

/-- Environment in which only the vendor-name query fails. -/
def envVendorsFail : AdminEnv :=
  { ordersResult := some [row0], vendorsResult := none, itemsResult := some [] }

/-- Environment for the `avgPrepMinutes` comparison: one order with
`created_at` and `ready_at` set but `preparing_at` null. -/
def envPrep : AdminEnv :=
  { ordersResult := some [row0], vendorsResult := some [], itemsResult := some [] }

/-- Two-vendor day: vendor `v2` out-sells vendor `v1`. -/
def rowsTwoVendors : List DbOrderSummaryRow :=
  [ { row0 with
      id := "o1", order_code := "MS-1001"
      vendor_id := some "v1", total_cents := some 2000 },
    { row0 with
      id := "o2", order_code := "MS-1002"
      vendor_id := some "v2", total_cents := some 3000 },
    { row0 with
      id := "o3", order_code := "MS-1003"
      vendor_id := some "v1", total_cents := some 500 } ]

/-- Environment for the vendor-sales claims: two vendors with names. -/
def envTwoVendors : AdminEnv :=
  { ordersResult := some rowsTwoVendors
    vendorsResult := some [ { id := "v1", name := "Alice" },
                            { id := "v2", name := "Bob" } ]
    itemsResult := some [] }

/-- Environment for a day with zero orders. -/
def envEmptyDay : AdminEnv :=
  { ordersResult := some [], vendorsResult := none, itemsResult := none }

/-- The summary `getAdminSummary` produces for `envPrep` (one order of 1000
cents by vendor `v1`, no vendor names, no items). -/
def summaryOneVendor : AdminSummary :=
  { ordersToday := 1
    revenueToday := 10
    taxToday := 40 / 29
    activeOrders := 1
    avgPrepMinutesToday := some 15
    vendorSalesToday := [{ vendorId := "v1", vendorName := "Unknown vendor", total := 10 }]
    topVendor := some { vendorId := "v1", vendorName := "Unknown vendor", total := 10 }
    topItem := none
    latestOrders := [{ id := "o1", code := "MS-1001", tableNumber := none
                       status := .ready, totalAmount := 10, createdAt := some 0 }] }

end AdminDashboard

/-! ### Theorems -/

/-- C2: `updateOrderStatus` succeeds exactly on the pairs
`(preparing, ready)` and `(ready, collected)`; an equal current and target
status is a no-op returning the order unchanged; every other pair — including
any reverse transition — fails with the invalid-transition (Conflict) error
and leaves the order row unchanged. -/
theorem updateOrderStatus_state_machine
    (current : Orders.DbOrderMinimal) (toStatus : OrderStatus) :
    (current.status = toStatus →
       Orders.updateOrderStatus current toStatus = (.ok current, current)) ∧
    ((current.status = .preparing ∧ toStatus = .ready) ∨
     (current.status = .ready ∧ toStatus = .collected) →
       Orders.updateOrderStatus current toStatus =
         (.ok { id := current.id, status := toStatus },
          { current with status := toStatus })) ∧
    (current.status ≠ toStatus →
       ¬((current.status = .preparing ∧ toStatus = .ready) ∨
         (current.status = .ready ∧ toStatus = .collected)) →
       Orders.updateOrderStatus current toStatus =
         (.error (.invalidTransition current.status toStatus), current)) := by
  obtain ⟨oid, st⟩ := current
  cases st <;> cases toStatus <;>
    simp [Orders.updateOrderStatus, canTransition]

/-- Witness for C2: the spec's scenario — an order currently `collected`
updated towards `preparing` fails with the Conflict error and is left
unchanged. -/
theorem updateOrderStatus_state_machine_witness :
    Orders.updateOrderStatus { id := "o1", status := .collected } .preparing =
      (.error (.invalidTransition .collected .preparing),
       { id := "o1", status := .collected }) :=
  (updateOrderStatus_state_machine { id := "o1", status := .collected }
      .preparing).2.2 (by decide) (by decide)

/-- C3: the timestamping `updateOrderStatus` is first-write-wins per
timestamp field — on any later call (with any target status and any clock
value), a `ready_at` or `collected_at` that is already set is never changed
again. -/
theorem updateOrderStatus_timestamps_first_write_wins
    (current : OrdersTs.DbOrderStatusRow) (toStatus : OrderStatus)
    (atArg t : String) :
    (current.ready_at = some t →
       ((OrdersTs.updateOrderStatus current toStatus atArg).2).ready_at = some t) ∧
    (current.collected_at = some t →
       ((OrdersTs.updateOrderStatus current toStatus atArg).2).collected_at = some t) := by
  obtain ⟨oid, st, pAt, rAt, cAt⟩ := current
  cases st <;> cases toStatus <;>
    simp [OrdersTs.updateOrderStatus, canTransition] <;>
    refine ⟨fun h => ?_, fun h => ?_⟩ <;>
    split_ifs <;> simp_all

/-- Witness for C3: an order already `ready` with `ready_at` set keeps that
timestamp across a retried `ready` update and across the later `collected`
update. -/
theorem updateOrderStatus_timestamps_first_write_wins_witness :
    ((OrdersTs.updateOrderStatus
        { id := "o1", status := .ready, preparing_at := some "T0"
          ready_at := some "T1", collected_at := none } .collected "T9").2).ready_at =
      some "T1" :=
  (updateOrderStatus_timestamps_first_write_wins
      { id := "o1", status := .ready, preparing_at := some "T0"
        ready_at := some "T1", collected_at := none } .collected "T9" "T1").1 rfl

/-- Inversion of a successful `createOrder` call: the session and the fetched
menu items were resolved, the line-item payload was built from the cart, and
the persisted order carries exactly the computed totals. -/
theorem createOrder_ok_inv {env : Orders.CreateOrderEnv}
    {input : Orders.CreateOrderInput} {res : Orders.CreatedOrderResult}
    (h : Orders.createOrder env input = .ok res) :
    ∃ session rows,
      env.sessionResult = some session ∧
      Orders.buildOrderItems
        ((env.menuTable.getD []).filter fun m =>
          (input.items.map fun i => i.menuItemId).contains m.id)
        input.items = some rows ∧
      res.items = rows ∧
      res.ticketCode = session.ticket_code ∧
      res.order.status = .preparing ∧
      res.order.tax_rate = input.taxRate.getD 0 ∧
      res.order.total_cents = (rows.map fun r => r.unit_price_cents * r.quantity).sum ∧
      res.order.net_cents =
        (if 0 < input.taxRate.getD 0 then
           jsRound ((res.order.total_cents : ℚ) / (1 + input.taxRate.getD 0 / 100))
         else res.order.total_cents) ∧
      res.order.tax_cents = res.order.total_cents - res.order.net_cents := by
  unfold Orders.createOrder at h
  dsimp only at h
  split at h
  · exact Except.noConfusion h
  split at h
  · exact Except.noConfusion h
  rename_i session hsess
  split at h
  · exact Except.noConfusion h
  rename_i vendor hvend
  split at h
  · exact Except.noConfusion h
  split at h
  · exact Except.noConfusion h
  rename_i table hmenu
  split at h
  · exact Except.noConfusion h
  split at h
  · exact Except.noConfusion h
  split at h
  · exact Except.noConfusion h
  rename_i rows hrows
  split at h
  · exact Except.noConfusion h
  split at h
  · exact Except.noConfusion h
  rw [Except.ok.injEq] at h
  subst h
  refine ⟨session, rows, hsess, ?_, rfl, rfl, rfl, rfl, rfl, ?_, rfl⟩
  · rw [hmenu]
    exact hrows
  · simp

/-- `jsRound` agrees with the mathematical `⌊x + 1/2⌋`. -/
theorem jsRound_eq_floor (q : ℚ) : jsRound q = ⌊q + 1/2⌋ := by
  rw [jsRound, Rat.floor_def', ← Rat.floor_def]

/-- Running `createOrder` on the spec's worked scenario persists exactly
`scenarioResult`. -/
theorem scenario_run :
    Orders.createOrder Orders.scenarioEnv Orders.scenarioInput =
      .ok Orders.scenarioResult := by
  have hnet : jsRound ((62500 : ℚ) / 29) = 2155 := by
    rw [jsRound_eq_floor, Int.floor_eq_iff]
    norm_num
  unfold Orders.createOrder
  simp [Orders.scenarioEnv, Orders.scenarioInput, Orders.menuA, Orders.menuB,
    Orders.buildOrderItems, Orders.scenarioResult]
  norm_num [hnet]

/-- C1: for every cart accepted by `createOrder`, the persisted order's total
equals the sum over its line items of quantity times the snapshotted unit
price; with tax rate 0 (or omitted) net equals total and tax is 0; with
tax rate `r > 0`, `net = round(total / (1 + r/100))` and `net + tax = total`.
In particular the cart `[{price 1000, qty 2}, {price 500, qty 1}]` at
`tax_rate = 16` yields total 2500, net 2155, tax 345. -/
theorem createOrder_totals :
    (∀ env input res, Orders.createOrder env input = .ok res →
       res.order.total_cents =
         (res.items.map fun r => r.unit_price_cents * r.quantity).sum ∧
       res.order.net_cents + res.order.tax_cents = res.order.total_cents ∧
       (input.taxRate.getD 0 = 0 →
          res.order.net_cents = res.order.total_cents ∧ res.order.tax_cents = 0) ∧
       (0 < input.taxRate.getD 0 →
          res.order.net_cents =
            jsRound ((res.order.total_cents : ℚ) /
              (1 + input.taxRate.getD 0 / 100)))) ∧
    (Orders.createOrder Orders.scenarioEnv Orders.scenarioInput).map
        (fun res => (res.order.total_cents, res.order.net_cents, res.order.tax_cents)) =
      .ok (2500, 2155, 345) := by
  constructor
  · intro env input res h
    obtain ⟨session, rows, -, -, hitems, -, -, hrate, htot, hnet, htax⟩ :=
      createOrder_ok_inv h
    refine ⟨by rw [htot, hitems], by rw [htax]; ring, fun h0 => ?_, fun hpos => ?_⟩
    · rw [h0] at hnet
      simp at hnet
      exact ⟨hnet, by rw [htax, hnet]; ring⟩
    · rw [hnet, if_pos hpos]
  · rw [scenario_run]
    rfl

/-- Witness for C1: the worked scenario instantiates the general totals
theorem at a concrete accepted cart. -/
theorem createOrder_totals_witness :
    Orders.scenarioResult.order.total_cents =
      (Orders.scenarioResult.items.map fun r => r.unit_price_cents * r.quantity).sum ∧
    Orders.scenarioResult.order.net_cents + Orders.scenarioResult.order.tax_cents =
      Orders.scenarioResult.order.total_cents :=
  ⟨(createOrder_totals.1 Orders.scenarioEnv Orders.scenarioInput
      Orders.scenarioResult scenario_run).1,
   (createOrder_totals.1 Orders.scenarioEnv Orders.scenarioInput
      Orders.scenarioResult scenario_run).2.1⟩

/-- `buildOrderItems` copies each cart line's quantity verbatim into the
corresponding `order_items` row. -/
theorem buildOrderItems_quantities {menuItems : List Orders.DbMenuItem} :
    ∀ {cartLines rows},
      Orders.buildOrderItems menuItems cartLines = some rows →
      (rows.map fun r => r.quantity) = cartLines.map fun l => l.quantity := by
  intro cartLines
  induction cartLines with
  | nil =>
    intro rows h
    simp only [Orders.buildOrderItems, Option.some.injEq] at h
    simp [← h]
  | cons l rest ih =>
    intro rows h
    rw [Orders.buildOrderItems] at h
    split at h
    · exact Option.noConfusion h
    split at h
    · exact Option.noConfusion h
    rename_i rows' hrec
    rw [Option.some.injEq] at h
    subst h
    simp [ih hrec]

/-- C9 (amended): `createOrder` persists line items with the quantity copied
verbatim from the cart and performs no quantity validation; the
`quantity > 0` invariant therefore holds exactly when every cart line has a
positive quantity. -/
theorem createOrder_quantities :
    ∀ env input res, Orders.createOrder env input = .ok res →
      ((res.items.map fun r => r.quantity) = input.items.map fun l => l.quantity) ∧
      ((∀ l ∈ input.items, 0 < l.quantity) → ∀ r ∈ res.items, 0 < r.quantity) := by
  intro env input res h
  obtain ⟨session, rows, -, hbuild, hitems, -⟩ := createOrder_ok_inv h
  have hq := buildOrderItems_quantities hbuild
  refine ⟨by rw [hitems, hq], fun hpos r hr => ?_⟩
  rw [hitems] at hr
  have : r.quantity ∈ rows.map fun r => r.quantity := List.mem_map_of_mem _ hr
  rw [hq] at this
  obtain ⟨l, hl, hlq⟩ := List.mem_map.mp this
  rw [← hlq]
  exact hpos l hl

/-- Counterexample for C9: a cart line with quantity 0 is accepted by
`createOrder` and persisted verbatim — the persisted order's single line item
has quantity 0. -/
theorem createOrder_zero_quantity_persisted :
    (Orders.createOrder Orders.scenarioEnv Orders.zeroQtyInput).map
        (fun res => res.items.map fun r => r.quantity) =
      .ok [0] := by
  unfold Orders.createOrder
  simp [Orders.scenarioEnv, Orders.zeroQtyInput, Orders.menuA, Orders.menuB,
    Orders.buildOrderItems]
  rfl

/-- If the menu table has unique ids and the requested id list contains a
duplicate, the batch fetch returns strictly fewer rows than the number of
requested ids. -/
theorem filter_length_ne_of_dup {table : List Orders.DbMenuItem}
    {ids : List String} (htable : (table.map fun m => m.id).Nodup)
    (hdup : ¬ ids.Nodup) :
    (table.filter fun m => ids.contains m.id).length ≠ ids.length := by
  intro hEq
  have hsubl : ((table.filter fun m => ids.contains m.id).map fun m => m.id).Sublist
      (table.map fun m => m.id) :=
    (List.filter_sublist table).map _
  have hnd : ((table.filter fun m => ids.contains m.id).map fun m => m.id).Nodup :=
    hsubl.nodup htable
  have hsub : ((table.filter fun m => ids.contains m.id).map fun m => m.id) ⊆ ids := by
    intro x hx
    simp only [List.mem_map, List.mem_filter] at hx
    obtain ⟨m, ⟨-, hc⟩, rfl⟩ := hx
    simpa using hc
  have hsp := List.subperm_of_subset hnd hsub
  have hperm := hsp.perm_of_length_le (by rw [List.length_map, hEq])
  exact hdup (hperm.nodup_iff.mp hnd)

/-- C10: a cart that lists the same menu item id in two or more lines is
rejected by `createOrder` with the not-found error ("Some menu items could
not be found.") even when the duplicated item exists, is active and is
available — the batch fetch returns one row per distinct id (the menu table's
ids are unique) while its size is compared against the non-deduplicated
requested id list. -/
theorem createOrder_duplicate_lines_rejected
    (env : Orders.CreateOrderEnv) (input : Orders.CreateOrderInput)
    (session : Orders.DbOrderSession) (vendor : Orders.DbVendor)
    (table : List Orders.DbMenuItem)
    (hsess : env.sessionResult = some session)
    (hvend : env.vendorRow = some vendor)
    (hact : vendor.is_active = true)
    (hmenu : env.menuTable = some table)
    (htable : (table.map fun m => m.id).Nodup)
    (hdup : ¬ (input.items.map fun i => i.menuItemId).Nodup) :
    Orders.createOrder env input = .error .menuItemsNotFound := by
  have hne : ¬ input.items.length = 0 := by
    intro h0
    rw [List.length_eq_zero] at h0
    exact hdup (by simp [h0])
  have hlen := filter_length_ne_of_dup htable hdup
  unfold Orders.createOrder
  rw [if_neg hne, hsess]
  dsimp only
  rw [hvend]
  dsimp only
  rw [hact, if_neg (by simp : ¬(true = false))]
  rw [hmenu]
  dsimp only
  rw [if_pos hlen]

/-- Witness for C10: the duplicate-line cart (`Item A` twice, existing,
active and available) is rejected by `createOrder` in the all-succeeding
store environment. -/
theorem createOrder_duplicate_lines_rejected_witness :
    Orders.createOrder Orders.scenarioEnv Orders.dupInput =
      .error .menuItemsNotFound :=
  createOrder_duplicate_lines_rejected Orders.scenarioEnv Orders.dupInput
    { id := "s1", ticket_code := "WL-1111" } { id := "v1", is_active := true }
    [Orders.menuA, Orders.menuB] rfl rfl rfl rfl (by decide) (by decide)

/-- C4 (amended): ticket-code allocation in the standalone session-start
route retries with a fresh code on insert failure, up to 5 attempts, and
fails only after all 5 fail; order-code allocation inside `createOrder`
performs exactly one insert attempt — whenever that first attempt fails the
call fails, regardless of whether a regenerated retry would have
succeeded. -/
theorem code_allocation_retry_policies :
    (∀ attempts, (∀ i, i < 5 → attempts i = none) →
       SessionsStart.sessionsStart attempts =
         .error "Failed to create session after retries") ∧
    (∀ attempts k s, k < 5 → attempts k = some s →
       (∀ j, j < k → attempts j = none) →
       SessionsStart.sessionsStart attempts = .ok s) ∧
    (∀ env input, env.orderInsertOutcomes 0 = false →
       ∀ res, Orders.createOrder env input ≠ .ok res) := by
  have h5 : List.range 5 = [0, 1, 2, 3, 4] := rfl
  refine ⟨?_, ?_, ?_⟩
  · intro attempts h
    rw [SessionsStart.sessionsStart, h5]
    simp [h 0 (by omega), h 1 (by omega), h 2 (by omega), h 3 (by omega),
      h 4 (by omega), SessionsStart.firstInsertSuccess]
  · intro attempts k s hk hks hprev
    rw [SessionsStart.sessionsStart, h5]
    interval_cases k
    · simp [SessionsStart.firstInsertSuccess, hks]
    · simp [SessionsStart.firstInsertSuccess, hks, hprev 0 (by omega)]
    · simp [SessionsStart.firstInsertSuccess, hks, hprev 0 (by omega),
        hprev 1 (by omega)]
    · simp [SessionsStart.firstInsertSuccess, hks, hprev 0 (by omega),
        hprev 1 (by omega), hprev 2 (by omega)]
    · simp [SessionsStart.firstInsertSuccess, hks, hprev 0 (by omega),
        hprev 1 (by omega), hprev 2 (by omega), hprev 3 (by omega)]
  · intro env input h res hok
    unfold Orders.createOrder at hok
    dsimp only at hok
    split at hok
    · exact Except.noConfusion hok
    split at hok
    · exact Except.noConfusion hok
    split at hok
    · exact Except.noConfusion hok
    split at hok
    · exact Except.noConfusion hok
    split at hok
    · exact Except.noConfusion hok
    split at hok
    · exact Except.noConfusion hok
    split at hok
    · exact Except.noConfusion hok
    split at hok
    · exact Except.noConfusion hok
    exact Except.noConfusion hok

/-- Counterexample for C4: under insert outcomes where the first attempt hits
a uniqueness violation and a regenerated second attempt would succeed, the
ticket path (session-start route) succeeds by retrying while order-code
allocation inside `createOrder` fails outright — the two sites do not share
one collision-retry policy. -/
theorem code_allocation_not_uniform :
    Orders.createOrder Orders.collideEnv Orders.scenarioInput =
      .error .orderInsertFailed ∧
    SessionsStart.sessionsStart Orders.collideAttempts =
      .ok { id := "s2", ticket_code := "WL-2222" } := by
  constructor
  · unfold Orders.createOrder
    simp [Orders.collideEnv, Orders.scenarioEnv, Orders.scenarioInput,
      Orders.menuA, Orders.menuB, Orders.buildOrderItems]
  · rfl

unseal List.merge List.mergeSort in
/-- Evaluation of the stable sort on a singleton list. -/
theorem mergeSort_one {α : Type} (a : α) (le : α → α → Bool) :
    List.mergeSort [a] le = [a] := rfl

/-- One pass-1 step appends exactly the (optional) prep duration of the
row. -/
theorem pass1Step_prep (acc : AdminDashboard.Pass1)
    (o : AdminDashboard.DbOrderSummaryRow) :
    (AdminDashboard.pass1Step acc o).prepDurationsMinutes =
      acc.prepDurationsMinutes ++ (AdminDashboard.prepMinutesCode o).toList := by
  simp only [AdminDashboard.pass1Step, AdminDashboard.prepMinutesCode]
  cases o.created_at <;> cases o.ready_at <;> dsimp <;> split_ifs <;> simp

/-- The pass-1 loop collects exactly the prep durations of the qualifying
rows, in order. -/
theorem pass1_foldl_prep (rows : List AdminDashboard.DbOrderSummaryRow)
    (acc : AdminDashboard.Pass1) :
    (rows.foldl AdminDashboard.pass1Step acc).prepDurationsMinutes =
      acc.prepDurationsMinutes ++ rows.filterMap AdminDashboard.prepMinutesCode := by
  induction rows generalizing acc with
  | nil => simp
  | cons o rest ih =>
    rw [List.foldl_cons, ih, List.filterMap_cons, pass1Step_prep]
    cases AdminDashboard.prepMinutesCode o <;> simp

/-- The pass-1 loop sums `total_cents ?? 0` over the rows. -/
theorem pass1_foldl_total (rows : List AdminDashboard.DbOrderSummaryRow)
    (acc : AdminDashboard.Pass1) :
    (rows.foldl AdminDashboard.pass1Step acc).totalCents =
      acc.totalCents + (rows.map fun o => o.total_cents.getD 0).sum := by
  induction rows generalizing acc with
  | nil => simp
  | cons o rest ih =>
    rw [List.foldl_cons, ih]
    simp [AdminDashboard.pass1Step]
    ring

/-- `bumpVendor` adds the increment to the total of the per-vendor sums. -/
theorem bumpVendor_sum (sales : List AdminDashboard.VendorSale)
    (vid vname : String) (inc : ℚ) :
    ((AdminDashboard.bumpVendor sales vid vname inc).map fun v => v.total).sum =
      (sales.map fun v => v.total).sum + inc := by
  induction sales with
  | nil => simp [AdminDashboard.bumpVendor]
  | cons e rest ih =>
    rw [AdminDashboard.bumpVendor]
    split_ifs with he <;> simp [ih] <;> ring

/-- The vendor aggregation preserves the sum of the order amounts when every
row names a vendor. -/
theorem vendorAgg_foldl_sum (nameOf : String → Option String)
    (rows : List AdminDashboard.DbOrderSummaryRow) :
    ∀ acc, (∀ o ∈ rows, o.vendor_id ≠ none) →
      ((rows.foldl (AdminDashboard.vendorStep nameOf) acc).map fun v => v.total).sum =
        (acc.map fun v => v.total).sum +
          (rows.map fun o => ((o.total_cents.getD 0 : Int) / 100 : ℚ)).sum := by
  induction rows with
  | nil => intro acc _; simp
  | cons o rest ih =>
    intro acc hv
    rw [List.foldl_cons, ih _ fun w hw => hv w (List.mem_cons_of_mem _ hw)]
    rw [List.map_cons, List.sum_cons]
    cases ho : o.vendor_id with
    | none => exact absurd ho (hv o (by simp))
    | some vid =>
      rw [AdminDashboard.vendorStep, ho]
      rw [bumpVendor_sum]
      ring

/-- Sum of the per-order kwacha amounts equals the cent sum divided by
100. -/
theorem sum_map_div_cast (rows : List AdminDashboard.DbOrderSummaryRow) :
    (rows.map fun o => ((o.total_cents.getD 0 : Int) / 100 : ℚ)).sum =
      (((rows.map fun o => o.total_cents.getD 0).sum : Int) : ℚ) / 100 := by
  induction rows with
  | nil => simp
  | cons o rest ih =>
    simp [ih]
    ring

/-- Every vendor name produced by `bumpVendor` satisfies `P` when the
existing names and the inserted name do. -/
theorem bumpVendor_names {P : String → Prop} :
    ∀ (sales : List AdminDashboard.VendorSale) (vid vname : String) (inc : ℚ),
      (∀ v ∈ sales, P v.vendorName) → P vname →
      ∀ v ∈ AdminDashboard.bumpVendor sales vid vname inc, P v.vendorName := by
  intro sales
  induction sales with
  | nil =>
    intro vid vname inc _ hn v hv
    simp [AdminDashboard.bumpVendor] at hv
    rw [hv]
    exact hn
  | cons e rest ih =>
    intro vid vname inc hs hn v hv
    rw [AdminDashboard.bumpVendor] at hv
    split_ifs at hv with he
    · rcases List.mem_cons.mp hv with h1 | h2
      · rw [h1]
        exact hs e (by simp)
      · exact hs v (List.mem_cons_of_mem _ h2)
    · rcases List.mem_cons.mp hv with h1 | h2
      · rw [h1]
        exact hs e (by simp)
      · exact ih vid vname inc (fun w hw => hs w (List.mem_cons_of_mem _ hw)) hn v h2

/-- Every vendor name produced by the aggregation loop satisfies `P` when
the name source only produces names satisfying `P`. -/
theorem vendorAgg_foldl_names {P : String → Prop}
    (nameOf : String → Option String)
    (hP : ∀ vid, P ((nameOf vid).getD "Unknown vendor")) :
    ∀ (rows : List AdminDashboard.DbOrderSummaryRow) acc,
      (∀ v ∈ acc, P v.vendorName) →
      ∀ v ∈ rows.foldl (AdminDashboard.vendorStep nameOf) acc, P v.vendorName := by
  intro rows
  induction rows with
  | nil =>
    intro acc hacc v hv
    simpa using hacc v (by simpa using hv)
  | cons o rest ih =>
    intro acc hacc v hv
    rw [List.foldl_cons] at hv
    refine ih _ ?_ v hv
    rw [AdminDashboard.vendorStep]
    cases o.vendor_id with
    | none => exact hacc
    | some vid => exact bumpVendor_names acc vid _ _ hacc (hP vid)

/-- Running `getAdminSummary` on the one-order environment `envPrep`
produces exactly `summaryOneVendor`. -/
theorem envPrep_run :
    AdminDashboard.getAdminSummary AdminDashboard.envPrep =
      .ok AdminDashboard.summaryOneVendor := by
  rw [AdminDashboard.getAdminSummary]
  simp [AdminDashboard.envPrep, AdminDashboard.row0, AdminDashboard.pass1,
    AdminDashboard.pass1Step, AdminDashboard.vendorAgg, AdminDashboard.vendorStep,
    AdminDashboard.bumpVendor, AdminDashboard.vendorNameLookup,
    AdminDashboard.latestOrdersOf, AdminDashboard.bestItem,
    AdminDashboard.itemTotals, AdminDashboard.summaryOneVendor,
    AdminDashboard.DEFAULT_VAT_RATE, mergeSort_one]
  norm_num

/-- C8: `getAdminSummary` on a day containing zero orders returns exactly the
all-zero summary (counts 0, revenue 0, tax 0, no active orders, null average
prep time, empty vendor sales, null top vendor, null top item, empty latest
orders). -/
theorem getAdminSummary_empty_day (env : AdminDashboard.AdminEnv)
    (h : env.ordersResult = some []) :
    AdminDashboard.getAdminSummary env = .ok AdminDashboard.zeroAdminSummary := by
  rw [AdminDashboard.getAdminSummary, h]
  simp [AdminDashboard.pass1, AdminDashboard.vendorAgg,
    AdminDashboard.latestOrdersOf, AdminDashboard.zeroAdminSummary,
    AdminDashboard.DEFAULT_VAT_RATE]

/-- Witness for C8 at a concrete environment with an empty day. -/
theorem getAdminSummary_empty_day_witness :
    AdminDashboard.getAdminSummary AdminDashboard.envEmptyDay =
      .ok AdminDashboard.zeroAdminSummary :=
  getAdminSummary_empty_day AdminDashboard.envEmptyDay rfl

/-- C6 (amended): the summary's average prep time is the mean, in minutes, of
`(ready_at − created_at)` over exactly the day's orders with both timestamps
present and `ready_at > created_at` — the order-creation time, not
`preparing_at` (which the summary query does not even select) — and is null
when no such order exists. -/
theorem getAdminSummary_avgPrep (env : AdminDashboard.AdminEnv)
    (rows : List AdminDashboard.DbOrderSummaryRow)
    (h : env.ordersResult = some rows) :
    (AdminDashboard.getAdminSummary env).map (fun s => s.avgPrepMinutesToday) =
      .ok (AdminDashboard.avgPrepMinutesFromCreated rows) := by
  rw [AdminDashboard.getAdminSummary, h]
  simp [AdminDashboard.pass1, pass1_foldl_prep,
    AdminDashboard.avgPrepMinutesFromCreated, Except.map]

/-- Witness for C6's amended statement at the concrete one-order
environment. -/
theorem getAdminSummary_avgPrep_witness :
    (AdminDashboard.getAdminSummary AdminDashboard.envPrep).map
        (fun s => s.avgPrepMinutesToday) =
      .ok (AdminDashboard.avgPrepMinutesFromCreated [AdminDashboard.row0]) :=
  getAdminSummary_avgPrep AdminDashboard.envPrep [AdminDashboard.row0] rfl

/-- Counterexample for C6: on a day whose single order has `created_at = 0`,
`ready_at = 900000` (15 minutes) and a null `preparing_at`, the code reports
an average prep time of 15 minutes while the spec's
`(ready_at − preparing_at)` formula yields null. -/
theorem avgPrep_counterexample :
    (AdminDashboard.getAdminSummary AdminDashboard.envPrep).map
        (fun s => s.avgPrepMinutesToday) = .ok (some 15) ∧
    AdminDashboard.avgPrepMinutesClaim [AdminDashboard.row0] = none := by
  constructor
  · rw [envPrep_run]
    rfl
  · simp [AdminDashboard.avgPrepMinutesClaim, AdminDashboard.prepMinutesClaim,
      AdminDashboard.row0]

/-- C7: the summary's vendor-sales list is sorted non-increasing by total;
when every order row names a vendor, the sum of its per-vendor totals equals
the summary's revenue; and the top vendor is the first element of the list
(null when it is empty). -/
theorem vendorSales_sorted_sum_top (env : AdminDashboard.AdminEnv)
    (rows : List AdminDashboard.DbOrderSummaryRow) (s : AdminDashboard.AdminSummary)
    (h : env.ordersResult = some rows)
    (hv : ∀ o ∈ rows, o.vendor_id ≠ none)
    (hs : AdminDashboard.getAdminSummary env = .ok s) :
    List.Pairwise (fun a b => b.total ≤ a.total) s.vendorSalesToday ∧
    (s.vendorSalesToday.map fun v => v.total).sum = s.revenueToday ∧
    s.topVendor = s.vendorSalesToday.head? := by
  rw [AdminDashboard.getAdminSummary, h] at hs
  dsimp only at hs
  rw [Except.ok.injEq] at hs
  subst hs
  refine ⟨?_, ?_, rfl⟩
  · have hsorted := @List.sorted_mergeSort AdminDashboard.VendorSale
      (fun a b => decide (b.total ≤ a.total))
      (fun a b c hab hbc => by
        simp only [decide_eq_true_eq] at hab hbc ⊢
        exact le_trans hbc hab)
      (fun a b => by
        simp only [Bool.or_eq_true, decide_eq_true_eq]
        exact le_total b.total a.total)
      (AdminDashboard.vendorAgg (AdminDashboard.vendorNameLookup env.vendorsResult) rows)
    exact hsorted.imp fun hab => by simpa using hab
  · have hperm := List.mergeSort_perm
      (AdminDashboard.vendorAgg (AdminDashboard.vendorNameLookup env.vendorsResult) rows)
      (fun a b => decide (b.total ≤ a.total))
    rw [(hperm.map fun v => v.total).sum_eq]
    rw [AdminDashboard.vendorAgg, vendorAgg_foldl_sum _ rows _ hv, sum_map_div_cast]
    rw [AdminDashboard.pass1, pass1_foldl_total]
    norm_num

/-- Witness for C7: the one-order environment instantiates the vendor-sales
claims at a concrete summary. -/
theorem vendorSales_sorted_sum_top_witness :
    List.Pairwise (fun a b => b.total ≤ a.total)
      AdminDashboard.summaryOneVendor.vendorSalesToday ∧
    (AdminDashboard.summaryOneVendor.vendorSalesToday.map fun v => v.total).sum =
      AdminDashboard.summaryOneVendor.revenueToday ∧
    AdminDashboard.summaryOneVendor.topVendor =
      AdminDashboard.summaryOneVendor.vendorSalesToday.head? :=
  vendorSales_sorted_sum_top AdminDashboard.envPrep [AdminDashboard.row0]
    AdminDashboard.summaryOneVendor rfl (by simp [AdminDashboard.row0]) envPrep_run

/-- C5 (amended): a failure loading the day's order set makes
`getAdminSummary` throw ("Failed to load orders for admin summary.") rather
than return a zero-valued summary; a failure loading only vendor names keeps
the per-vendor totals and degrades every vendor name to "Unknown vendor"
(the rest of the summary is unaffected by the vendor query); a failure
loading only the item rows degrades exactly `topItem` to null (the rest of
the summary is unaffected by the items query). -/
theorem summary_failure_policy :
    (∀ env : AdminDashboard.AdminEnv, env.ordersResult = none →
       AdminDashboard.getAdminSummary env =
         .error "Failed to load orders for admin summary.") ∧
    (∀ (env : AdminDashboard.AdminEnv) rows s, env.ordersResult = some rows →
       env.itemsResult = none →
       AdminDashboard.getAdminSummary env = .ok s → s.topItem = none) ∧
    (∀ (env : AdminDashboard.AdminEnv) items2,
       (AdminDashboard.getAdminSummary { env with itemsResult := items2 }).map
           (fun s => { s with topItem := none }) =
         (AdminDashboard.getAdminSummary env).map fun s => { s with topItem := none }) ∧
    (∀ (env : AdminDashboard.AdminEnv) rows s, env.ordersResult = some rows →
       env.vendorsResult = none →
       AdminDashboard.getAdminSummary env = .ok s →
       ∀ v ∈ s.vendorSalesToday, v.vendorName = "Unknown vendor") ∧
    (∀ (env : AdminDashboard.AdminEnv) vendors2,
       (AdminDashboard.getAdminSummary { env with vendorsResult := vendors2 }).map
           (fun s => { s with vendorSalesToday := [], topVendor := none }) =
         (AdminDashboard.getAdminSummary env).map fun s =>
           { s with vendorSalesToday := [], topVendor := none }) := by
  refine ⟨?_, ?_, ?_, ?_, ?_⟩
  · intro env h
    rw [AdminDashboard.getAdminSummary, h]
  · intro env rows s h hi hs
    rw [AdminDashboard.getAdminSummary, h] at hs
    dsimp only at hs
    rw [Except.ok.injEq] at hs
    subst hs
    simp [hi]
  · intro env items2
    cases ho : env.ordersResult with
    | none => simp [AdminDashboard.getAdminSummary, ho]
    | some rows => simp [AdminDashboard.getAdminSummary, ho, Except.map]
  · intro env rows s h hven hs
    rw [AdminDashboard.getAdminSummary, h] at hs
    dsimp only at hs
    rw [Except.ok.injEq] at hs
    subst hs
    intro v hv
    dsimp only at hv
    have hmem : v ∈ AdminDashboard.vendorAgg
        (AdminDashboard.vendorNameLookup env.vendorsResult) rows := by
      have hperm := List.mergeSort_perm
        (AdminDashboard.vendorAgg (AdminDashboard.vendorNameLookup env.vendorsResult) rows)
        (fun a b => decide (b.total ≤ a.total))
      exact hperm.mem_iff.mp hv
    rw [hven, AdminDashboard.vendorAgg] at hmem
    exact vendorAgg_foldl_names (P := fun n => n = "Unknown vendor")
      (AdminDashboard.vendorNameLookup none)
      (fun vid => rfl) rows [] (by simp) v hmem
  · intro env vendors2
    cases ho : env.ordersResult with
    | none => simp [AdminDashboard.getAdminSummary, ho]
    | some rows => simp [AdminDashboard.getAdminSummary, ho, Except.map]

/-- Counterexample for C5: when the order query fails the summary call
errors out (it does not return the zero summary); and when only the
vendor-name query fails, `vendorSalesToday` is not degraded to empty — it
still carries the vendor's total, under the name "Unknown vendor". -/
theorem summary_failure_policy_counterexample :
    AdminDashboard.getAdminSummary AdminDashboard.envOrdersFail =
      .error "Failed to load orders for admin summary." ∧
    AdminDashboard.getAdminSummary AdminDashboard.envOrdersFail ≠
      .ok AdminDashboard.zeroAdminSummary ∧
    (AdminDashboard.getAdminSummary AdminDashboard.envVendorsFail).map
        (fun s => s.vendorSalesToday) =
      .ok [{ vendorId := "v1", vendorName := "Unknown vendor", total := 10 }] := by
  refine ⟨rfl, by simp [AdminDashboard.getAdminSummary, AdminDashboard.envOrdersFail], ?_⟩
  rw [AdminDashboard.getAdminSummary]
  simp [AdminDashboard.envVendorsFail, AdminDashboard.row0, AdminDashboard.pass1,
    AdminDashboard.pass1Step, AdminDashboard.vendorAgg, AdminDashboard.vendorStep,
    AdminDashboard.bumpVendor, AdminDashboard.vendorNameLookup, mergeSort_one,
    Except.map]
  norm_num

/-- Running `getAdminSummary` on the empty-day environment yields the zero
summary (direct evaluation). -/
theorem envEmptyDay_run :
    AdminDashboard.getAdminSummary AdminDashboard.envEmptyDay =
      .ok AdminDashboard.zeroAdminSummary := by
  rw [AdminDashboard.getAdminSummary]
  simp [AdminDashboard.envEmptyDay, AdminDashboard.pass1, AdminDashboard.vendorAgg,
    AdminDashboard.latestOrdersOf, AdminDashboard.zeroAdminSummary,
    AdminDashboard.DEFAULT_VAT_RATE]

/-- Running `getAdminSummary` with a failing vendor query on the one-order
day yields the same summary as `envPrep` (all names fall back to
"Unknown vendor"). -/
theorem envVendorsFail_run :
    AdminDashboard.getAdminSummary AdminDashboard.envVendorsFail =
      .ok AdminDashboard.summaryOneVendor := by
  rw [AdminDashboard.getAdminSummary]
  simp [AdminDashboard.envVendorsFail, AdminDashboard.row0, AdminDashboard.pass1,
    AdminDashboard.pass1Step, AdminDashboard.vendorAgg, AdminDashboard.vendorStep,
    AdminDashboard.bumpVendor, AdminDashboard.vendorNameLookup,
    AdminDashboard.latestOrdersOf, AdminDashboard.bestItem,
    AdminDashboard.itemTotals, AdminDashboard.summaryOneVendor,
    AdminDashboard.DEFAULT_VAT_RATE, mergeSort_one]
  norm_num

/-- Witness for C9's amended statement: the worked scenario's persisted
quantities are exactly the cart's quantities. -/
theorem createOrder_quantities_witness :
    (Orders.scenarioResult.items.map fun r => r.quantity) =
      Orders.scenarioInput.items.map fun l => l.quantity :=
  (createOrder_quantities Orders.scenarioEnv Orders.scenarioInput
    Orders.scenarioResult scenario_run).1

/-- Witness for C4's amended statement: five straight collisions exhaust the
session-start retry loop; a first collision followed by a successful retry
succeeds there; and `createOrder` with a failing first order insert never
succeeds. -/
theorem code_allocation_retry_policies_witness :
    SessionsStart.sessionsStart (fun _ => none) =
      .error "Failed to create session after retries" ∧
    SessionsStart.sessionsStart Orders.collideAttempts =
      .ok { id := "s2", ticket_code := "WL-2222" } ∧
    Orders.createOrder Orders.collideEnv Orders.scenarioInput ≠
      .ok Orders.scenarioResult :=
  ⟨code_allocation_retry_policies.1 (fun _ => none) (fun _ _ => rfl),
   code_allocation_retry_policies.2.1 Orders.collideAttempts 1
     { id := "s2", ticket_code := "WL-2222" } (by omega) rfl
     (fun j hj => by interval_cases j; rfl),
   code_allocation_retry_policies.2.2 Orders.collideEnv Orders.scenarioInput rfl
     Orders.scenarioResult⟩

/-- Witness for C5's amended statement at concrete environments: the failing
order query propagates the error; a failing items query leaves `topItem`
null; a failing vendor query yields only "Unknown vendor" names. -/
theorem summary_failure_policy_witness :
    AdminDashboard.getAdminSummary AdminDashboard.envOrdersFail =
      .error "Failed to load orders for admin summary." ∧
    AdminDashboard.zeroAdminSummary.topItem = none ∧
    ∀ v ∈ AdminDashboard.summaryOneVendor.vendorSalesToday,
      v.vendorName = "Unknown vendor" :=
  ⟨summary_failure_policy.1 AdminDashboard.envOrdersFail rfl,
   summary_failure_policy.2.1 AdminDashboard.envEmptyDay []
     AdminDashboard.zeroAdminSummary rfl rfl envEmptyDay_run,
   summary_failure_policy.2.2.2.1 AdminDashboard.envVendorsFail
     [AdminDashboard.row0] AdminDashboard.summaryOneVendor rfl rfl
     envVendorsFail_run⟩

end WaitlessMarket
